import Mathlib

/-!
Verification of the KTX/SRT reservation orchestration core.

The domain enums are embedded from `src/domain/models/enums.py`. The
booking-session adapter (`KTXService`) and the domain entities are part of
this repository but their source files are not present here (only the
integration tests and the enums are); those parts are modelled from the
specification, as marked in each doc comment.

The external provider session (the `Korail` client) is opaque: it is
modelled as a record of response functions, and every adapter operation
additionally returns the list of provider calls it performed, so that
"invokes the provider with ..." and "without contacting the provider"
become statable properties.
-/

namespace KTX

/-- Embedded from `src/domain/models/enums.py`: passenger fare-class tag. -/
inductive PassengerType where
  | ADULT
  | CHILD
  | SENIOR
deriving DecidableEq, Repr

/-- Embedded from `src/domain/models/enums.py`: provider/service variant. -/
inductive TrainType where
  | KTX
  | SRT
deriving DecidableEq, Repr

/-- Embedded from `src/domain/models/enums.py`: seat allocation policy. -/
inductive SeatPreference where
  | GENERAL_FIRST
  | SPECIAL_FIRST
  | GENERAL_ONLY
  | SPECIAL_ONLY
deriving DecidableEq, Repr

/-- Modelled from the spec: `Passenger` value record (entities source file
is missing; §3 of the spec). -/
structure Passenger where
  passenger_type : PassengerType
  count : Nat
deriving DecidableEq, Repr

/-- Modelled from the spec: a calendar date, standing in for Python
`datetime.date`, kept only to the precision the adapter uses. -/
structure Date where
  year : Nat
  month : Nat
  day : Nat
deriving DecidableEq, Repr

/-- Modelled from the spec: `ReservationRequest` value record (entities
source file is missing; §3 of the spec). -/
structure ReservationRequest where
  departure_station : String
  arrival_station : String
  departure_date : Date
  departure_time : String
  passengers : List Passenger
  train_type : TrainType
  seat_preference : Option SeatPreference
deriving DecidableEq, Repr

/-- Modelled from the spec: `TrainSchedule` normalized search result
(entities source file is missing; §3 of the spec). -/
structure TrainSchedule where
  train_number : String
  departure_date : String
  departure_time : String
  arrival_date : String
  arrival_time : String
  train_type : TrainType
  adult_fare : String
  seat_count : Nat
deriving DecidableEq, Repr

/-- Modelled from the spec: `ReservationResult` record (entities source
file is missing; §3 of the spec). -/
structure ReservationResult where
  success : Bool
  reservation_number : Option String
  message : String
deriving DecidableEq, Repr

/-- Modelled from the spec: `CreditCard` opaque payment credential
(entities source file is missing; §3 of the spec). -/
structure CreditCard where
  number : String
  password : String
  validation_number : String
  expire : String
  is_corporate : Bool
deriving DecidableEq, Repr

/-- Raw provider train record, as the tests exercise it (`train_no`,
`dep_date`, ..., `has_seat`); the seat-availability check is modelled as a
field since the record is opaque data to the adapter. -/
structure RawTrain where
  train_no : String
  dep_date : String
  dep_time : String
  arr_date : String
  arr_time : String
  raw_train_type : String
  adultcharge : String
  seat_count : Nat
  has_seat : Bool
deriving DecidableEq, Repr

/-- Raw provider reservation record, exposing a reservation identifier
(`rsv_id` in the tests). -/
structure RawReservation where
  rsv_id : String
deriving DecidableEq, Repr

/-- One provider-session call performed by the adapter, with the arguments
it was given.  Adapter operations return the list of calls they made, so
that claims about invoking or not invoking the provider are statable. -/
inductive ProviderCall where
  | loginCall (user password : String)
  | logoutCall
  | searchCall (date time dep arr : String)
  | reserveCall (train : RawTrain) (passengers : List Passenger) (option : String)
  | reservationsCall
  | payCall (rsv : RawReservation) (card : CreditCard)
deriving DecidableEq, Repr

/-- The opaque provider session (§6 of the spec): each operation's outcome
for given arguments.  `Except.error` models a raised exception (for `pay`,
also a provider rejection, carrying the provider's message). -/
structure Provider where
  login : String → String → Except String Bool
  search_train : String → String → String → String → Except String (List RawTrain)
  reserve : RawTrain → List Passenger → String → Except String RawReservation
  reservations : Except String (Option (List RawReservation))
  pay : RawReservation → CreditCard → Except String Unit

/-- Adapter state: the logged-in flag the adapter owns (§4.3). -/
structure AdapterState where
  logged_in : Bool
deriving DecidableEq, Repr

/-- Modelled from the spec: `KTXService._to_korail_reserve_option`
(adapter source file is missing; §4.2 and the mapping tests).  Each enum
member maps to its like-named provider code; a missing preference maps to
the `GENERAL_FIRST` code. -/
def _to_korail_reserve_option : Option SeatPreference → String
  | some SeatPreference.GENERAL_FIRST => "GENERAL_FIRST"
  | some SeatPreference.SPECIAL_FIRST => "SPECIAL_FIRST"
  | some SeatPreference.GENERAL_ONLY => "GENERAL_ONLY"
  | some SeatPreference.SPECIAL_ONLY => "SPECIAL_ONLY"
  | none => "GENERAL_FIRST"

/-- Left-pad the decimal digits of `n` with zeros to `width` characters. -/
def padNum (width n : Nat) : String :=
  let s := toString n
  String.mk (List.replicate (width - s.length) '0') ++ s

/-- The provider's native 8-digit `YYYYMMDD` date string for a date. -/
def formatDate8 (d : Date) : String :=
  padNum 4 d.year ++ padNum 2 d.month ++ padNum 2 d.day

/-- Modelled from the spec: the 1:1 mapping of one raw provider train
record into a domain `TrainSchedule` (adapter source file is missing;
§3/§4.3 and `test_search_trains_success`). -/
def toTrainSchedule (t : RawTrain) : TrainSchedule :=
  { train_number := t.train_no
    departure_date := t.dep_date
    departure_time := t.dep_time
    arrival_date := t.arr_date
    arrival_time := t.arr_time
    train_type := if t.raw_train_type == "SRT" then TrainType.SRT else TrainType.KTX
    adult_fare := t.adultcharge
    seat_count := t.seat_count }

/-- Modelled from the spec: `KTXService.login` (adapter source file is
missing; §4.3).  Delegates to the provider login; provider-reported
success moves to LoggedIn and returns true; provider-reported failure or
any provider exception leaves the adapter LoggedOut and returns false. -/
def login (p : Provider) (_s : AdapterState) (user password : String) :
    Bool × AdapterState × List ProviderCall :=
  match p.login user password with
  | Except.ok true => (true, ⟨true⟩, [ProviderCall.loginCall user password])
  | Except.ok false => (false, ⟨false⟩, [ProviderCall.loginCall user password])
  | Except.error _ => (false, ⟨false⟩, [ProviderCall.loginCall user password])

/-- Modelled from the spec: `KTXService.logout` (adapter source file is
missing; §4.3).  Delegates to provider logout, moves to LoggedOut
unconditionally and returns true. -/
def logout (_p : Provider) (_s : AdapterState) :
    Bool × AdapterState × List ProviderCall :=
  (true, ⟨false⟩, [ProviderCall.logoutCall])

/-- Modelled from the spec: `KTXService.is_logged_in` (adapter source file
is missing; §4.3).  Pure state read. -/
def is_logged_in (s : AdapterState) : Bool :=
  s.logged_in

/-- Modelled from the spec: `KTXService.search_trains` (adapter source
file is missing; §4.3).  LoggedOut short-circuits to the empty list
without contacting the provider; otherwise the provider search is invoked
with the request's 8-digit date and its time string verbatim; any provider
exception degrades to the empty list; records map 1:1 in provider
order. -/
def search_trains (p : Provider) (s : AdapterState) (req : ReservationRequest) :
    List TrainSchedule × List ProviderCall :=
  if s.logged_in then
    let d := formatDate8 req.departure_date
    let call := ProviderCall.searchCall d req.departure_time
      req.departure_station req.arrival_station
    match p.search_train d req.departure_time
        req.departure_station req.arrival_station with
    | Except.ok trains => (trains.map toTrainSchedule, [call])
    | Except.error _ => ([], [call])
  else
    ([], [])

/-- Modelled from the spec: `KTXService.reserve_train` (adapter source
file is missing; §4.3).  LoggedOut short-circuits; otherwise the provider
is re-queried as in search, the train with the schedule's train number is
located ("Train not found" when absent), its seat-availability check is
consulted before committing, and the provider reserve call is invoked with
the matched record, the request's passengers and the mapped
seat-preference option. -/
def reserve_train (p : Provider) (s : AdapterState)
    (schedule : TrainSchedule) (req : ReservationRequest) :
    ReservationResult × List ProviderCall :=
  if s.logged_in then
    let d := formatDate8 req.departure_date
    let searchCall := ProviderCall.searchCall d req.departure_time
      req.departure_station req.arrival_station
    match p.search_train d req.departure_time
        req.departure_station req.arrival_station with
    | Except.error e => (⟨false, none, e⟩, [searchCall])
    | Except.ok trains =>
      match trains.find? (fun t => t.train_no == schedule.train_number) with
      | none => (⟨false, none, "Train not found"⟩, [searchCall])
      | some t =>
        if t.has_seat then
          let opt := _to_korail_reserve_option req.seat_preference
          let rCall := ProviderCall.reserveCall t req.passengers opt
          match p.reserve t req.passengers opt with
          | Except.ok rsv => (⟨true, some rsv.rsv_id, "Success"⟩, [searchCall, rCall])
          | Except.error e => (⟨false, none, e⟩, [searchCall, rCall])
        else
          (⟨false, none, "No seat available"⟩, [searchCall])
  else
    (⟨false, none, "Not logged in"⟩, [])

/-- Modelled from the spec: `KTXService.payment_reservation` (adapter
source file is missing; §4.3).  LoggedOut short-circuits; otherwise the
provider reservations listing is consulted for the record matching the
result's reservation number ("Reservation not found" when the listing is
none or has no match), then payment is submitted.  Failure results keep
the prior reservation number. -/
def payment_reservation (p : Provider) (s : AdapterState)
    (reservation : ReservationResult) (card : CreditCard) :
    ReservationResult × List ProviderCall :=
  if s.logged_in then
    match p.reservations with
    | Except.error e =>
      (⟨false, reservation.reservation_number, e⟩, [ProviderCall.reservationsCall])
    | Except.ok none =>
      (⟨false, reservation.reservation_number, "Reservation not found"⟩,
        [ProviderCall.reservationsCall])
    | Except.ok (some rsvs) =>
      match rsvs.find? (fun r => some r.rsv_id == reservation.reservation_number) with
      | none =>
        (⟨false, reservation.reservation_number, "Reservation not found"⟩,
          [ProviderCall.reservationsCall])
      | some r =>
        match p.pay r card with
        | Except.ok _ =>
          (⟨true, reservation.reservation_number, "Success"⟩,
            [ProviderCall.reservationsCall, ProviderCall.payCall r card])
        | Except.error e =>
          (⟨false, reservation.reservation_number, e⟩,
            [ProviderCall.reservationsCall, ProviderCall.payCall r card])
  else
    (⟨false, reservation.reservation_number, "Not logged in"⟩, [])

/-- Whether a provider-call log contains a reserve call. -/
def hasReserveCall (log : List ProviderCall) : Bool :=
  log.any fun c =>
    match c with
    | ProviderCall.reserveCall _ _ _ => true
    | _ => false

/-- Whether a provider-call log contains a pay call. -/
def hasPayCall (log : List ProviderCall) : Bool :=
  log.any fun c =>
    match c with
    | ProviderCall.payCall _ _ => true
    | _ => false

/-! Concrete fixtures mirroring the integration-test setup, used by the
witness and counterexample theorems. -/

/-- The sample request of the test fixtures: Seoul → Busan, 2025-01-15 at
10:00:00, two adults and one child, with a SPECIAL_FIRST preference. -/
def sampleRequest : ReservationRequest :=
  { departure_station := "Seoul"
    arrival_station := "Busan"
    departure_date := ⟨2025, 1, 15⟩
    departure_time := "100000"
    passengers := [⟨PassengerType.ADULT, 2⟩, ⟨PassengerType.CHILD, 1⟩]
    train_type := TrainType.KTX
    seat_preference := some SeatPreference.SPECIAL_FIRST }

/-- The provider train record the tests mock: train "001" with a seat. -/
def sampleTrain : RawTrain :=
  ⟨"001", "20250115", "100000", "20250115", "123000", "KTX", "59800", 10, true⟩

/-- The same train record, but whose seat-availability check fails. -/
def sampleTrainNoSeat : RawTrain :=
  { sampleTrain with has_seat := false }

/-- The domain schedule for train "001". -/
def sampleSchedule : TrainSchedule :=
  toTrainSchedule sampleTrain

/-- The credit card of the test fixtures. -/
def sampleCard : CreditCard :=
  ⟨"1234567812345678", "12", "990101", "2512", false⟩

/-- A prior successful reservation result with number "R123456". -/
def sampleReservation : ReservationResult :=
  ⟨true, some "R123456", "Success"⟩

/-- The raw provider reservation record "R123456". -/
def sampleRsv : RawReservation :=
  ⟨"R123456"⟩

/-- A provider on which every call succeeds, returning the fixtures. -/
def provHappy : Provider :=
  { login := fun _ _ => Except.ok true
    search_train := fun _ _ _ _ => Except.ok [sampleTrain]
    reserve := fun _ _ _ => Except.ok sampleRsv
    reservations := Except.ok (some [sampleRsv])
    pay := fun _ _ => Except.ok () }

/-- A provider whose search finds nothing and whose reservations listing
is none. -/
def provEmpty : Provider :=
  { provHappy with
    search_train := fun _ _ _ _ => Except.ok []
    reservations := Except.ok none }

/-- A provider on which search, reservations and pay all raise. -/
def provErr : Provider :=
  { provHappy with
    search_train := fun _ _ _ _ => Except.error "Search error"
    reservations := Except.error "Network error"
    pay := fun _ _ => Except.error "Payment rejected" }

/-- A provider whose search finds train "001" without an available seat. -/
def provNoSeat : Provider :=
  { provHappy with
    search_train := fun _ _ _ _ => Except.ok [sampleTrainNoSeat] }

end KTX

namespace KTX

/-- C5: the seat-preference mapping is a pure total Lean function; each of
the four `SeatPreference` members maps to its like-named fixed code string
(in particular `SPECIAL_FIRST` to `"SPECIAL_FIRST"`), and a missing
(`none`) input maps to the `GENERAL_FIRST` code `"GENERAL_FIRST"`. -/
theorem to_korail_reserve_option_spec :
    _to_korail_reserve_option (some SeatPreference.GENERAL_FIRST) = "GENERAL_FIRST"
    ∧ _to_korail_reserve_option (some SeatPreference.SPECIAL_FIRST) = "SPECIAL_FIRST"
    ∧ _to_korail_reserve_option (some SeatPreference.GENERAL_ONLY) = "GENERAL_ONLY"
    ∧ _to_korail_reserve_option (some SeatPreference.SPECIAL_ONLY) = "SPECIAL_ONLY"
    ∧ _to_korail_reserve_option none = "GENERAL_FIRST" :=
  ⟨rfl, rfl, rfl, rfl, rfl⟩

/-- C3: `login` returns true iff the provider login reports `ok true`
(so provider-reported failure and any provider exception both yield
false — the model is a total function, so nothing propagates), the
logged-in state after `login` equals exactly its returned outcome, and
`logout` returns true and leaves the adapter logged out. -/
theorem login_reflects_provider (p : Provider) (s : AdapterState)
    (u pw : String) :
    ((login p s u pw).1 = true ↔ p.login u pw = Except.ok true)
    ∧ is_logged_in (login p s u pw).2.1 = (login p s u pw).1
    ∧ (logout p s).1 = true
    ∧ is_logged_in (logout p s).2.1 = false := by
  refine ⟨?_, ?_, rfl, rfl⟩ <;>
    rcases h : p.login u pw with e | b
  · simp [login, h]
  · cases b <;> simp [login, h]
  · simp [login, is_logged_in, h]
  · cases b <;> simp [login, is_logged_in, h]

/-- C1: on a logged-out adapter, `search_trains` returns the empty list,
and `reserve_train` and `payment_reservation` each return a failure
result with message "Not logged in" — in all three cases with an empty
provider-call log, i.e. without contacting the provider. -/
theorem not_logged_in_short_circuit (p : Provider) (s : AdapterState)
    (req : ReservationRequest) (schedule : TrainSchedule)
    (reservation : ReservationResult) (card : CreditCard)
    (h : s.logged_in = false) :
    search_trains p s req = ([], [])
    ∧ reserve_train p s schedule req = (⟨false, none, "Not logged in"⟩, [])
    ∧ payment_reservation p s reservation card =
        (⟨false, reservation.reservation_number, "Not logged in"⟩, []) := by
  refine ⟨?_, ?_, ?_⟩ <;>
    simp [search_trains, reserve_train, payment_reservation, h]

/-- Witness for C1 at the concrete fixtures. -/
theorem not_logged_in_short_circuit_witness :
    search_trains provHappy ⟨false⟩ sampleRequest = ([], [])
    ∧ reserve_train provHappy ⟨false⟩ sampleSchedule sampleRequest =
        (⟨false, none, "Not logged in"⟩, [])
    ∧ payment_reservation provHappy ⟨false⟩ sampleReservation sampleCard =
        (⟨false, sampleReservation.reservation_number, "Not logged in"⟩, []) :=
  not_logged_in_short_circuit provHappy ⟨false⟩ sampleRequest sampleSchedule
    sampleReservation sampleCard rfl

/-- C4: on a logged-in adapter, `search_trains` performs exactly one
provider search call, whose date argument is the request's departure date
as its 8-digit string and whose time argument is the request's departure
time unmodified (regardless of the provider outcome). -/
theorem search_uses_requested_date_time (p : Provider) (s : AdapterState)
    (req : ReservationRequest) (h : s.logged_in = true) :
    (search_trains p s req).2 =
      [ProviderCall.searchCall (formatDate8 req.departure_date)
        req.departure_time req.departure_station req.arrival_station] := by
  rcases hE : p.search_train (formatDate8 req.departure_date)
      req.departure_time req.departure_station req.arrival_station with e | ts <;>
    simp [search_trains, h, hE]

/-- Witness for C4 at the concrete fixtures; the 8-digit string of
2025-01-15 evaluates to "20250115". -/
theorem search_uses_requested_date_time_witness :
    formatDate8 sampleRequest.departure_date = "20250115"
    ∧ sampleRequest.departure_time = "100000"
    ∧ (search_trains provHappy ⟨true⟩ sampleRequest).2 =
        [ProviderCall.searchCall (formatDate8 sampleRequest.departure_date)
          sampleRequest.departure_time sampleRequest.departure_station
          sampleRequest.arrival_station] :=
  ⟨rfl, rfl, search_uses_requested_date_time provHappy ⟨true⟩ sampleRequest rfl⟩

/-- C8: on a logged-in adapter, if the provider search raises, then
`search_trains` returns the empty list (the model is a total function, so
the exception does not propagate). -/
theorem search_exception_empty (p : Provider) (s : AdapterState)
    (req : ReservationRequest) (e : String) (h : s.logged_in = true)
    (hE : p.search_train (formatDate8 req.departure_date) req.departure_time
      req.departure_station req.arrival_station = Except.error e) :
    (search_trains p s req).1 = [] := by
  simp [search_trains, h, hE]

/-- Witness for C8 on the provider whose search raises. -/
theorem search_exception_empty_witness :
    (search_trains provErr ⟨true⟩ sampleRequest).1 = [] :=
  search_exception_empty provErr ⟨true⟩ sampleRequest "Search error" rfl rfl

/-- C6: on a logged-in adapter, if the re-query succeeds but no returned
train's number equals the schedule's train number (in particular when the
list is empty), `reserve_train` returns a failure with message
"Train not found" and never invokes the provider reserve call. -/
theorem reserve_train_not_found (p : Provider) (s : AdapterState)
    (schedule : TrainSchedule) (req : ReservationRequest)
    (trains : List RawTrain) (h : s.logged_in = true)
    (hS : p.search_train (formatDate8 req.departure_date) req.departure_time
      req.departure_station req.arrival_station = Except.ok trains)
    (hN : ∀ t ∈ trains, t.train_no ≠ schedule.train_number) :
    (reserve_train p s schedule req).1 = ⟨false, none, "Train not found"⟩
    ∧ hasReserveCall (reserve_train p s schedule req).2 = false := by
  have hF : trains.find? (fun t => t.train_no == schedule.train_number) = none := by
    rw [List.find?_eq_none]
    intro t ht
    simpa using hN t ht
  simp [reserve_train, h, hS, hF, hasReserveCall]

/-- Witness for C6 on the provider whose search finds nothing. -/
theorem reserve_train_not_found_witness :
    (reserve_train provEmpty ⟨true⟩ sampleSchedule sampleRequest).1 =
      ⟨false, none, "Train not found"⟩
    ∧ hasReserveCall (reserve_train provEmpty ⟨true⟩ sampleSchedule sampleRequest).2 =
      false :=
  reserve_train_not_found provEmpty ⟨true⟩ sampleSchedule sampleRequest []
    rfl rfl (by simp)

/-- C7: on a logged-in adapter, if the provider's reservations listing
yields none — either the listing itself is none, or it holds no record
whose identifier matches the reservation's number — then
`payment_reservation` returns a failure with message
"Reservation not found" and never invokes the provider pay call. -/
theorem payment_reservation_not_found (p : Provider) (s : AdapterState)
    (reservation : ReservationResult) (card : CreditCard)
    (h : s.logged_in = true)
    (hR : p.reservations = Except.ok none ∨
      ∃ rsvs, p.reservations = Except.ok (some rsvs) ∧
        ∀ r ∈ rsvs, some r.rsv_id ≠ reservation.reservation_number) :
    (payment_reservation p s reservation card).1.success = false
    ∧ (payment_reservation p s reservation card).1.message = "Reservation not found"
    ∧ hasPayCall (payment_reservation p s reservation card).2 = false := by
  rcases hR with hNone | ⟨rsvs, hList, hNo⟩
  · simp [payment_reservation, h, hNone, hasPayCall]
  · have hF : rsvs.find?
        (fun r => some r.rsv_id == reservation.reservation_number) = none := by
      rw [List.find?_eq_none]
      intro r hr
      simpa using hNo r hr
    simp [payment_reservation, h, hList, hF, hasPayCall]

/-- Witness for C7 on the provider whose reservations listing is none. -/
theorem payment_reservation_not_found_witness :
    (payment_reservation provEmpty ⟨true⟩ sampleReservation sampleCard).1.success =
      false
    ∧ (payment_reservation provEmpty ⟨true⟩ sampleReservation sampleCard).1.message =
      "Reservation not found"
    ∧ hasPayCall
        (payment_reservation provEmpty ⟨true⟩ sampleReservation sampleCard).2 =
      false :=
  payment_reservation_not_found provEmpty ⟨true⟩ sampleReservation sampleCard
    rfl (Or.inl rfl)

/-- C9: whenever `payment_reservation` fails, the returned result carries
the input reservation's reservation number unchanged — payment failure
never invalidates a prior successful reservation number. -/
theorem payment_preserves_reservation_number (p : Provider) (s : AdapterState)
    (reservation : ReservationResult) (card : CreditCard)
    (h : (payment_reservation p s reservation card).1.success = false) :
    (payment_reservation p s reservation card).1.reservation_number =
      reservation.reservation_number := by
  by_cases hs : s.logged_in
  · rcases hR : p.reservations with e | mrs
    · simp [payment_reservation, hs, hR]
    · rcases mrs with _ | rsvs
      · simp [payment_reservation, hs, hR]
      · rcases hF : rsvs.find?
            (fun r => some r.rsv_id == reservation.reservation_number) with _ | r
        · simp [payment_reservation, hs, hR, hF]
        · rcases hP : p.pay r card with e | u <;>
            simp [payment_reservation, hs, hR, hF, hP]
  · simp [payment_reservation, hs]

/-- Witness for C9 on the provider whose reservations listing raises, a
failing payment. -/
theorem payment_preserves_reservation_number_witness :
    (payment_reservation provErr ⟨true⟩ sampleReservation sampleCard).1.success =
      false
    ∧ (payment_reservation provErr ⟨true⟩ sampleReservation
        sampleCard).1.reservation_number = sampleReservation.reservation_number :=
  ⟨rfl, payment_preserves_reservation_number provErr ⟨true⟩ sampleReservation
    sampleCard rfl⟩

/-- C10: on a logged-in adapter, when the re-query succeeds and locates a
train whose number equals the schedule's train number, `reserve_train`
invokes the provider reserve call exactly when that train's
seat-availability check returns true. -/
theorem reserve_train_consults_has_seat (p : Provider) (s : AdapterState)
    (schedule : TrainSchedule) (req : ReservationRequest)
    (trains : List RawTrain) (t : RawTrain) (h : s.logged_in = true)
    (hS : p.search_train (formatDate8 req.departure_date) req.departure_time
      req.departure_station req.arrival_station = Except.ok trains)
    (hF : trains.find? (fun x => x.train_no == schedule.train_number) = some t) :
    hasReserveCall (reserve_train p s schedule req).2 = t.has_seat := by
  by_cases hSeat : t.has_seat
  · rcases hR : p.reserve t req.passengers
        (_to_korail_reserve_option req.seat_preference) with e | rsv <;>
      simp [reserve_train, h, hS, hF, hSeat, hR, hasReserveCall]
  · simp [reserve_train, h, hS, hF, hSeat, hasReserveCall]

/-- Witness for C10 at the concrete fixtures: train "001" has a seat and
the reserve call is invoked. -/
theorem reserve_train_consults_has_seat_witness :
    hasReserveCall (reserve_train provHappy ⟨true⟩ sampleSchedule sampleRequest).2 =
      sampleTrain.has_seat :=
  reserve_train_consults_has_seat provHappy ⟨true⟩ sampleSchedule sampleRequest
    [sampleTrain] sampleTrain rfl rfl (by decide)

/-- C2 as stated is false on the model: at this concrete input the
adapter is logged in, the re-query returns exactly one train whose number
equals the schedule's train number, yet — because that train's
seat-availability check fails — the provider reserve call is not invoked
and the result is not a success. -/
theorem reserve_option_claim_counterexample :
    (⟨true⟩ : AdapterState).logged_in = true
    ∧ provNoSeat.search_train (formatDate8 sampleRequest.departure_date)
        sampleRequest.departure_time sampleRequest.departure_station
        sampleRequest.arrival_station = Except.ok [sampleTrainNoSeat]
    ∧ [sampleTrainNoSeat].find?
        (fun x => x.train_no == sampleSchedule.train_number) = some sampleTrainNoSeat
    ∧ hasReserveCall
        (reserve_train provNoSeat ⟨true⟩ sampleSchedule sampleRequest).2 = false
    ∧ (reserve_train provNoSeat ⟨true⟩ sampleSchedule sampleRequest).1.success =
        false :=
  ⟨rfl, rfl, by decide, by decide, by decide⟩

/-- C2 (amended): on a logged-in adapter, when the re-query succeeds,
locates a train whose number equals the schedule's train number, and that
train's seat-availability check returns true, the adapter performs exactly
the search call followed by the reserve call — the latter with the matched
record, the request's passengers, and the option obtained by mapping the
request's seat preference, always supplied — and on provider reserve
success the result is a success carrying the provider's reservation
identifier. -/
theorem reserve_option_passed (p : Provider) (s : AdapterState)
    (schedule : TrainSchedule) (req : ReservationRequest)
    (trains : List RawTrain) (t : RawTrain) (h : s.logged_in = true)
    (hS : p.search_train (formatDate8 req.departure_date) req.departure_time
      req.departure_station req.arrival_station = Except.ok trains)
    (hF : trains.find? (fun x => x.train_no == schedule.train_number) = some t)
    (hSeat : t.has_seat = true) :
    (reserve_train p s schedule req).2 =
      [ProviderCall.searchCall (formatDate8 req.departure_date)
        req.departure_time req.departure_station req.arrival_station,
       ProviderCall.reserveCall t req.passengers
        (_to_korail_reserve_option req.seat_preference)]
    ∧ ∀ rsv, p.reserve t req.passengers
        (_to_korail_reserve_option req.seat_preference) = Except.ok rsv →
      (reserve_train p s schedule req).1 = ⟨true, some rsv.rsv_id, "Success"⟩ := by
  constructor
  · rcases hR : p.reserve t req.passengers
        (_to_korail_reserve_option req.seat_preference) with e | rsv <;>
      simp [reserve_train, h, hS, hF, hSeat, hR]
  · intro rsv hR
    simp [reserve_train, h, hS, hF, hSeat, hR]

/-- Witness for the amended C2 at the concrete fixtures: the reserve call
receives option "SPECIAL_FIRST" and the result carries "R123456". -/
theorem reserve_option_passed_witness :
    (reserve_train provHappy ⟨true⟩ sampleSchedule sampleRequest).2 =
      [ProviderCall.searchCall (formatDate8 sampleRequest.departure_date)
        sampleRequest.departure_time sampleRequest.departure_station
        sampleRequest.arrival_station,
       ProviderCall.reserveCall sampleTrain sampleRequest.passengers
        (_to_korail_reserve_option sampleRequest.seat_preference)]
    ∧ _to_korail_reserve_option sampleRequest.seat_preference = "SPECIAL_FIRST"
    ∧ (reserve_train provHappy ⟨true⟩ sampleSchedule sampleRequest).1 =
        ⟨true, some sampleRsv.rsv_id, "Success"⟩ := by
  have hmain := reserve_option_passed provHappy ⟨true⟩ sampleSchedule sampleRequest
    [sampleTrain] sampleTrain rfl rfl (by decide) rfl
  exact ⟨hmain.1, rfl, hmain.2 sampleRsv rfl⟩

end KTX
